import Mathlib

/-!
Verification of the BMEdit typed-bytecode deserialization core.

The definitions below are a shallow embedding of:
  * `GameLib/Scene/SceneObjectPropertiesLoader.cpp` (`SceneObjectPropertiesLoader::load`
    and `InternalContext::visitImpl`),
  * `GameLib/TypeRegistry.h` (`TypeRegistry::registerType`),
  * the `GMSGeomEntity` header (sentinel parent index).

`Span<T>` has value semantics in the source (`slice(offset, count)`, `operator[]`,
`++`, `operator bool`); it is embedded as `List`, where `slice off cnt` is
`(l.drop off).take cnt` and a null span coincides with the empty list.
Out-of-bounds cursor reads are embedded as a `streamExhausted` error (the spec's
bounds-checked cursor / `StreamExhausted`).
-/

namespace BMEdit

/-- Modelled from the spec and the opcodes used by the loader: the instruction
opcode vocabulary (`PRPOpCode`; the header is not part of the sources). -/
inductive PRPOpCode where
  | BeginObject
  | BeginNamedObject
  | EndObject
  | Container
  | NamedContainer
  | String
  | Trivial
deriving DecidableEq

/-- Modelled from the spec: one decoded instruction (`PRPInstruction`), an opcode
together with its operand fields (`getOperand().trivial.i32` and
`getOperand().str`). An instruction whose opcode does not use a field keeps that
field at its default. -/
structure PRPInstruction where
  opCode : PRPOpCode
  operandI32 : Int := 0
  operandStr : String := ""
deriving DecidableEq

/-- Modelled from the spec: the kind tag of a type descriptor (`TypeKind`). -/
inductive TypeKind where
  | primitive
  | enumeration
  | array
  | complex
deriving DecidableEq

/-- Modelled from the spec: a decoded value (`Value`). The decoded payload is
abstracted to a numeric tag; `instructions` is the retained-instruction list
reached through `Value::getInstructions()` in the loader. -/
structure Value where
  data : Nat := 0
  instructions : List PRPInstruction := []
deriving DecidableEq

/-- Modelled from the spec: a type descriptor (`Type`) as seen by the loader:
its kind, its `verify` and `map` phases over an instruction window, and the
`areUnexposedInstructionsAllowed` flag of complex descriptors. -/
structure GameType where
  kind : TypeKind
  verify : List PRPInstruction → Bool × List PRPInstruction
  map : List PRPInstruction → Option Value × List PRPInstruction
  unexposedInstructionsAllowed : Bool := false

/-- Modelled from the spec: the two read-only lookups of `TypeRegistry` used by
the loader (`findTypeByHash` on the numeric type id, `findTypeByShortName`). -/
structure LoaderRegistry where
  findTypeByHash : Nat → Option GameType
  findTypeByShortName : String → Option GameType

/-- Modelled from the spec: a scene object placeholder (`SceneObject`): type id
hash, optional name, property and controller mappings filled by the loader, a
weak parent back-reference and an owned child list (both embedded as indices
into the flat placeholder array). -/
structure SceneObject where
  typeId : Nat := 0
  name : String := ""
  properties : Value := {}
  controllers : List (String × Value) := []
  parent : Option Nat := none
  children : List Nat := []
deriving DecidableEq

/-- Errors thrown by the loader. `structural` stands for
`SceneObjectVisitorException`, the two `typeNotFound` variants for
`SceneObjectTypeNotFoundException` (hash overload and name overload),
`streamExhausted` for an out-of-bounds cursor read, and `outOfFuel` marks the
recursion-fuel guard of the embedding (unreachable under the fuel chosen by
`load`). -/
inductive LoadError where
  | structural (objectIdx : Nat) (msg : String)
  | typeNotFoundHash (objectIdx : Nat) (hash : Nat)
  | typeNotFoundName (objectIdx : Nat) (name : String)
  | streamExhausted (objectIdx : Nat)
  | outOfFuel (objectIdx : Nat)
deriving DecidableEq

def msgExpectedBegin : String := "Invalid object definition (expected BeginObject/BeginNamedObject)"

def msgVerificationFailed : String := "Invalid instructions set (verification failed)"

def msgMapFailed : String := "Invalid instructions set (verification failed) [2]"

def msgObjectEnd : String := "Object decl must ends with EndObject"

def msgExpectedContainer : String := "Invalid object definition (Expected Container/NamedContainer)"

def msgControllerString : String := "Invalid controller definition (Expected String)"

def msgControllerBegin : String := "Invalid controller definition (Expected BeginObject/BeginNamedObject)"

def msgControllerNotComplex : String := "Type not allowed to be controller because it is not COMPLEX"

def msgControllerMapFailed : String := "Failed to map controller"

def msgControllerNoEnd : String := "Invalid controller definition: controller with unexposed instructions and without EndObject instruction"

def msgControllerEnd : String := "Invalid controller definition (Expected EndObject)"

def msgChildrenContainer : String := "Invalid controller definition (Expected Container with children geoms)"

def msgChildEnd : String := "Invalid children definition (Expected EndObject)"

def msgObjectsExhausted : String := "Placeholder object list exhausted"

/-- `std::map::operator[]` followed by assignment: insert the key or replace the
mapped value. -/
def insertOrReplace : List (String × Value) → String → Value → List (String × Value)
  | [], k, v => [(k, v)]
  | (k0, v0) :: rest, k, v =>
    if k0 = k then (k, v) :: rest else (k0, v0) :: insertOrReplace rest k v

/-- Append instructions to the retained-instruction list of the value mapped at
key `k` (the `orgInstructionsRef.insert(orgInstructionsRef.end(), ...)` step). -/
def appendValueInstructions : List (String × Value) → String → List PRPInstruction → List (String × Value)
  | [], _, _ => []
  | (k0, v0) :: rest, k, ins =>
    if k0 = k then
      (k0, { v0 with instructions := v0.instructions ++ ins }) :: rest
    else
      (k0, v0) :: appendValueInstructions rest k ins

/-- Read an object of the flat placeholder store. -/
def getObj (st : List SceneObject) (i : Nat) : SceneObject := st.getD i {}

/-- `currentObject->setParent(parent)` on the store. -/
def setParentObj (st : List SceneObject) (i : Nat) (p : Nat) : List SceneObject :=
  st.set i { getObj st i with parent := some p }

/-- Lines 193-194: `currentObject->getControllers() = controllers;`
`currentObject->getProperties() = properties;`. -/
def setControllersAndProperties (st : List SceneObject) (i : Nat)
    (controllers : List (String × Value)) (properties : Value) : List SceneObject :=
  st.set i { getObj st i with controllers := controllers, properties := properties }

/-- The controller loop of `visitImpl` (lines 113-191), one iteration per unit
of `count`. Returns the accumulated controller map and the advanced cursor, or
the first error. Note two places where the source is embedded verbatim:
the unexposed-instruction slice takes `ip.size - endOffset` leading
instructions (`begin.slice(0, ip.size - endOffset)`), and the cursor is then
re-sliced to `ip.slice(endOffset, ip.size - endOffset)`. -/
def loopControllers (reg : LoaderRegistry) (objectIdx : Nat) :
    List PRPInstruction → List (String × Value) → Nat →
    Except LoadError (List (String × Value) × List PRPInstruction)
  | ip, acc, 0 => .ok (acc, ip)
  | ip, acc, count + 1 =>
    match ip with
    | [] => .error (.streamExhausted objectIdx)
    | s0 :: ip1 =>
      if s0.opCode ≠ PRPOpCode.String then
        .error (.structural objectIdx msgControllerString)
      else
        let controllerName := s0.operandStr
        match ip1 with
        | [] => .error (.streamExhausted objectIdx)
        | b0 :: ip2 =>
          if b0.opCode ≠ PRPOpCode.BeginObject ∧ b0.opCode ≠ PRPOpCode.BeginNamedObject then
            .error (.structural objectIdx msgControllerBegin)
          else
            match reg.findTypeByShortName controllerName with
            | none => .error (.typeNotFoundName objectIdx controllerName)
            | some controllerType =>
              if controllerType.kind ≠ TypeKind.complex then
                .error (.structural objectIdx msgControllerNotComplex)
              else
                match controllerType.map ip2 with
                | (none, _) => .error (.structural objectIdx msgControllerMapFailed)
                | (some v, ip3) =>
                  let acc1 := insertOrReplace acc controllerName v
                  match ip3 with
                  | [] => .error (.streamExhausted objectIdx)
                  | e0 :: _ =>
                    let step : Except LoadError (List (String × Value) × List PRPInstruction) :=
                      if e0.opCode ≠ PRPOpCode.EndObject ∧ controllerType.unexposedInstructionsAllowed then
                        let endOffset := (ip3.takeWhile (fun i => i.opCode ≠ PRPOpCode.EndObject)).length
                        if (ip3.drop endOffset).isEmpty then
                          .error (.structural objectIdx msgControllerNoEnd)
                        else
                          let unexposed := (ip3.drop 0).take (ip3.length - endOffset)
                          let acc2 := appendValueInstructions acc1 controllerName unexposed
                          .ok (acc2, (ip3.drop endOffset).take (ip3.length - endOffset))
                      else
                        .ok (acc1, ip3)
                    match step with
                    | .error e => .error e
                    | .ok (accN, ipN) =>
                      match ipN with
                      | [] => .error (.streamExhausted objectIdx)
                      | f0 :: ip5 =>
                        if f0.opCode ≠ PRPOpCode.EndObject then
                          .error (.structural objectIdx msgControllerEnd)
                        else
                          loopControllers reg objectIdx ip5 accN count

/-- The children loop of `visitImpl` (lines 213-229), one iteration per unit of
`count`. `visitChild child rest ip idx st` is the recursive
`visitImpl(currentObject, objects[0], objects.slice(1, size-1), ip)` call.
Exactly as in the source: the loop passes its own cursor `ip` by value to the
recursion, re-reads the same `ip` for the trailing `EndObject` check, and never
advances `objects` between iterations. -/
def loopChildren
    (visitChild : Nat → List Nat → List PRPInstruction → Nat → List SceneObject →
      Option LoadError × List SceneObject × Nat)
    (parent : Option Nat) (cur : Nat) (objects : List Nat) :
    List PRPInstruction → Nat → List SceneObject → Nat →
    Option LoadError × List SceneObject × Nat
  | _, objectIdx, st, 0 => (none, st, objectIdx)
  | ip, objectIdx, st, count + 1 =>
    let st1 := match parent with
      | some p => setParentObj st cur p
      | none => st
    let objectIdx1 := objectIdx + 1
    match objects with
    | [] => (some (.structural objectIdx1 msgObjectsExhausted), st1, objectIdx1)
    | child :: rest =>
      match visitChild child rest ip objectIdx1 st1 with
      | (some e, st2, idx2) => (some e, st2, idx2)
      | (none, st2, idx2) =>
        match ip with
        | [] => (some (.streamExhausted idx2), st2, idx2)
        | e0 :: ipRest =>
          if e0.opCode ≠ PRPOpCode.EndObject then
            (some (.structural idx2 msgChildEnd), st2, idx2)
          else
            loopChildren visitChild parent cur objects ipRest idx2 st2 count

/-- `InternalContext::visitImpl`, with the shared `this->objectIdx` counter and
the in-place mutations on the placeholder store threaded explicitly (mutations
performed before a throw survive it, as the C++ objects do). The extra `fuel`
argument only bounds the recursion depth of the embedding; `load` supplies
enough fuel for every placeholder list. -/
def visitImpl (reg : LoaderRegistry) :
    Nat → Option Nat → Nat → List Nat → List PRPInstruction → Nat → List SceneObject →
    Option LoadError × List SceneObject × Nat
  | 0, _, _, _, _, objectIdx, st => (some (.outOfFuel objectIdx), st, objectIdx)
  | fuel + 1, parent, cur, objects, instructions, objectIdx, st =>
    match instructions with
    | [] => (some (.streamExhausted objectIdx), st, objectIdx)
    | i0 :: ip1 =>
      if i0.opCode ≠ PRPOpCode.BeginObject ∧ i0.opCode ≠ PRPOpCode.BeginNamedObject then
        (some (.structural objectIdx msgExpectedBegin), st, objectIdx)
      else
        match reg.findTypeByHash (getObj st cur).typeId with
        | none => (some (.typeNotFoundHash objectIdx (getObj st cur).typeId), st, objectIdx)
        | some objectType =>
          if (objectType.verify ip1).1 = false then
            (some (.structural objectIdx msgVerificationFailed), st, objectIdx)
          else
            match objectType.map ip1 with
            | (none, _) => (some (.structural objectIdx msgMapFailed), st, objectIdx)
            | (some properties, ip2) =>
              match ip2 with
              | [] => (some (.streamExhausted objectIdx), st, objectIdx)
              | j0 :: ip3 =>
                if j0.opCode ≠ PRPOpCode.EndObject then
                  (some (.structural objectIdx msgObjectEnd), st, objectIdx)
                else
                  match ip3 with
                  | [] => (some (.streamExhausted objectIdx), st, objectIdx)
                  | k0 :: ip4 =>
                    if k0.opCode ≠ PRPOpCode.Container ∧ k0.opCode = PRPOpCode.NamedContainer then
                      (some (.structural objectIdx msgExpectedContainer), st, objectIdx)
                    else
                      match loopControllers reg objectIdx ip4 [] k0.operandI32.toNat with
                      | .error e => (some e, st, objectIdx)
                      | .ok (controllers, ip5) =>
                        let st1 := setControllersAndProperties st cur controllers properties
                        match ip5 with
                        | [] => (some (.streamExhausted objectIdx), st1, objectIdx)
                        | c0 :: ip6 =>
                          if c0.opCode ≠ PRPOpCode.Container ∧ c0.opCode ≠ PRPOpCode.NamedContainer then
                            (some (.structural objectIdx msgChildrenContainer), st1, objectIdx)
                          else
                            loopChildren
                              (fun child rest ip idx s =>
                                visitImpl reg fuel (some cur) child rest ip idx s)
                              parent cur objects ip6 objectIdx st1 c0.operandI32.toNat

/-- `SceneObjectPropertiesLoader::load`: guard on null/empty spans, then visit
the first placeholder as root with the rest as pending placeholders. The fuel
`objects.length` strictly dominates the recursion depth (each recursive call
strips one placeholder of `objects`). -/
def load (objects : List SceneObject) (instructions : List PRPInstruction)
    (reg : LoaderRegistry) : Option LoadError × List SceneObject :=
  if objects.isEmpty ∨ instructions.isEmpty then
    (none, objects)
  else
    let r := visitImpl reg objects.length none 0 (List.range' 1 (objects.length - 1))
      instructions 0 objects
    (r.1, r.2.1)

/-! ### Concrete fixtures used by the counterexample and witness theorems -/

/-- A complex descriptor whose `verify` accepts and whose `map` consumes no
instructions: a type with an empty declared shape. -/
def trivType : GameType where
  kind := TypeKind.complex
  verify := fun l => (true, l)
  map := fun l => (some {}, l)

/-- A complex controller descriptor that tolerates trailing instructions and
maps an empty shape to the value tagged 5. -/
def tolerantCtrlType : GameType where
  kind := TypeKind.complex
  verify := fun l => (true, l)
  map := fun l => (some { data := 5 }, l)
  unexposedInstructionsAllowed := true

/-- A primitive (non-complex) descriptor. -/
def primType : GameType where
  kind := TypeKind.primitive
  verify := fun l => (true, l)
  map := fun l => (some {}, l)

def ctrlName : String := "ZCtrl"

def primName : String := "ZPrim"

/-- A catalog resolving hash 7 to `trivType`, short name `ZCtrl` to
`tolerantCtrlType` and short name `ZPrim` to `primType`. -/
def testReg : LoaderRegistry where
  findTypeByHash := fun h => if h = 7 then some trivType else none
  findTypeByShortName := fun n =>
    if n = ctrlName then some tolerantCtrlType
    else if n = primName then some primType
    else none

def iBegin : PRPInstruction := { opCode := PRPOpCode.BeginObject }

def iEnd : PRPInstruction := { opCode := PRPOpCode.EndObject }

def iContainer (n : Int) : PRPInstruction := { opCode := PRPOpCode.Container, operandI32 := n }

def iNamedContainer (n : Int) : PRPInstruction :=
  { opCode := PRPOpCode.NamedContainer, operandI32 := n }

def iString (s : String) : PRPInstruction := { opCode := PRPOpCode.String, operandStr := s }

def iTrivial : PRPInstruction := { opCode := PRPOpCode.Trivial }

/-- A placeholder of the registered type. -/
def obj7 : SceneObject := { typeId := 7 }

/-- A short name with no catalog entry. -/
def noneName : String := "ZNothing"

/-- A grammar-correct two-object stream: a root with zero controllers and one
leaf child (the child has zero controllers and zero children), with the child's
trailing `EndObject` last. -/
def childStream : List PRPInstruction :=
  [iBegin, iEnd, iContainer 0, iContainer 1,
   iBegin, iEnd, iContainer 0, iContainer 0, iEnd]

/-- A single-object stream whose one controller maps an empty shape and is
followed by 2 surplus `Trivial` instructions before its `EndObject`; one extra
trailing instruction follows the (empty) children container. -/
def ctrlStream : List PRPInstruction :=
  [iBegin, iEnd, iContainer 1, iString ctrlName, iBegin,
   iTrivial, iTrivial, iEnd, iContainer 0, iTrivial]

lemma iBegin_opCode : iBegin.opCode = PRPOpCode.BeginObject := rfl

lemma iEnd_opCode : iEnd.opCode = PRPOpCode.EndObject := rfl

lemma iContainer_opCode (n : Int) : (iContainer n).opCode = PRPOpCode.Container := rfl

lemma iContainer_operand (n : Int) : (iContainer n).operandI32 = n := rfl

/-! ### GMSGeomEntity (sentinel parent index) -/

/-- `GMSGeomEntity::kInvalidParent` from the header. -/
def kInvalidParent : Nat := 0xFFFFFFEE

/-- The fields of `gamelib::gms::GMSGeomEntity` relevant to the hierarchy
claims, with the default member initializers of the header
(`m_parentGeomIndex { GMSGeomEntity::kInvalidParent }`). -/
structure GMSGeomEntity where
  parentGeomIndex : Nat := kInvalidParent
  depthLevel : Nat := 0
  name : String := ""
  typeId : Nat := 0
  instanceId : Nat := 0
  coliBits : Nat := 0
deriving DecidableEq

/-- Modelled from the spec: the body of `GMSGeomEntity::isInheritedOfGeom` is
not among the sources (only its declaration is); the spec defines the derived
boolean as parent index distinct from the sentinel. -/
def isInheritedOfGeom (e : GMSGeomEntity) : Bool :=
  e.parentGeomIndex ≠ kInvalidParent

/-! ### TypeRegistry::registerType -/

/-- A constructed type descriptor handed to `registerType`; `tag` stands for
the rest of the descriptor's content. -/
structure TypeDesc where
  name : String
  tag : Nat := 0
deriving DecidableEq

/-- The registry's owned storage and its two lookup indices
(`m_types`, `m_typesByName`, `m_typesByHash`). -/
structure TypeRegistryState where
  types : List TypeDesc := []
  typesByName : List (String × TypeDesc) := []
  typesByHash : List (String × TypeDesc) := []
deriving DecidableEq

/-- `unordered_map::find`-style lookup on the embedded index. -/
def lookupByName : List (String × TypeDesc) → String → Option TypeDesc
  | [], _ => none
  | (k, v) :: rest, key => if k = key then some v else lookupByName rest key

/-- `m_typesByName.try_emplace(name, ptr)`: insert only if the key is absent;
the second component is the `res` flag. -/
def tryEmplace (m : List (String × TypeDesc)) (k : String) (v : TypeDesc) :
    List (String × TypeDesc) × Bool :=
  if (lookupByName m k).isSome then (m, false) else (m ++ [(k, v)], true)

/-- `TypeRegistry::registerType`: null guard, `try_emplace` into the name
index, drop the descriptor and return null on a duplicate name, otherwise move
it into `m_types` and return the pointer. -/
def registerType (s : TypeRegistryState) (constructedType : Option TypeDesc) :
    Option TypeDesc × TypeRegistryState :=
  match constructedType with
  | none => (none, s)
  | some t =>
    match tryEmplace s.typesByName t.name t with
    | (_, false) => (none, s)
    | (m, true) => (some t, { s with typesByName := m, types := s.types ++ [t] })

/-! ### Claim theorems -/

/-- Claim C1. The claim states that Stage 2 raises the structural error exactly
when the opcode at the cursor is neither `Container` nor `NamedContainer`. The
source condition is `opcode != Container && opcode == NamedContainer`, which
raises the error exactly when the opcode IS `NamedContainer`: this theorem
evaluates the code at two failing inputs — a `NamedContainer(0)` controller
container aborts the decode although the claim allows it, and a `String` at the
same position passes the gate (count field 0) and the decode finishes without
any error although the claim requires an abort there. -/
theorem c1_stage2_gate_code_bug :
    (load [obj7] [iBegin, iEnd, iNamedContainer 0, iContainer 0] testReg).1 =
      some (LoadError.structural 0 msgExpectedContainer) ∧
    (load [obj7] [iBegin, iEnd, iString noneName, iContainer 0] testReg).1 = none :=
  ⟨rfl, rfl⟩

/-- Claim C2. The claim states that the recursive child call advances the same
shared cursor, so the parent resumes exactly on the child's trailing
`EndObject`. In the source the cursor is a `Span` passed by value, so the
parent's cursor is unchanged by the recursion and still points at the child's
`BeginObject`; the trailing-`EndObject` check therefore always fails. On a
grammar-correct root-with-one-leaf-child stream the decode aborts with the
children `EndObject` structural error at object index 1. -/
theorem c2_child_cursor_code_bug :
    (load [obj7, obj7] childStream testReg).1 =
      some (LoadError.structural 1 msgChildEnd) :=
  rfl

/-- Claim C3. The claim states that exactly the instructions strictly between
the post-map cursor and the next `EndObject` are retained (2 surplus trivial
instructions give a retained list of length exactly 2). The source slices
`begin.slice(0, ip.size - endOffset)` instead of `begin.slice(0, endOffset)`:
with 2 surplus `Trivial` instructions and a remaining window of 5 instructions
it retains the first 3 instructions — both trivials AND the `EndObject` itself
— so the retained list has length 3, not 2. -/
theorem c3_unexposed_capture_code_bug :
    (load [obj7] ctrlStream testReg).1 = none ∧
    (getObj (load [obj7] ctrlStream testReg).2 0).controllers =
      [(ctrlName, { data := 5, instructions := [iTrivial, iTrivial, iEnd] })] :=
  ⟨rfl, rfl⟩

/-- Claim C4. The claim states that linking a child sets the child's parent
back-reference to the enclosing object, including for a child with zero
children. The source executes `currentObject->setParent(parent)` inside the
children loop — it parents the ENCLOSING object to its own parent, never the
child — so after decoding a root with one leaf child, the child's parent
back-reference was never written: both objects still have no parent. -/
theorem c4_parent_link_code_bug :
    (load [obj7, obj7] childStream testReg).2.map SceneObject.parent = [none, none] :=
  rfl

/-- Claim C5: for a well-formed single-object stream
`BeginObject, props, EndObject, Container(0), Container(0)` whose type is
registered and whose `verify`/`map` accept the property window, `load`
completes without error and yields exactly one object whose properties equal
the mapped value and whose controller and child lists are empty. -/
theorem c5_grammar_completeness
    (reg : LoaderRegistry) (obj : SceneObject) (T : GameType)
    (propIns rest : List PRPInstruction) (props : Value)
    (hT : reg.findTypeByHash obj.typeId = some T)
    (hverify : (T.verify (propIns ++ iEnd :: iContainer 0 :: iContainer 0 :: rest)).1 = true)
    (hmap : T.map (propIns ++ iEnd :: iContainer 0 :: iContainer 0 :: rest) =
      (some props, iEnd :: iContainer 0 :: iContainer 0 :: rest))
    (hch : obj.children = []) :
    load [obj] (iBegin :: (propIns ++ iEnd :: iContainer 0 :: iContainer 0 :: rest)) reg =
      (none, [{ obj with properties := props, controllers := [] }]) ∧
    ({ obj with properties := props, controllers := [] } : SceneObject).controllers = [] ∧
    ({ obj with properties := props, controllers := [] } : SceneObject).children = [] := by
  refine ⟨?_, rfl, hch⟩
  have hstep : visitImpl reg 1 none 0 []
      (iBegin :: (propIns ++ iEnd :: iContainer 0 :: iContainer 0 :: rest)) 0 [obj] =
      (none, [{ obj with properties := props, controllers := [] }], 0) := by
    show visitImpl reg (0 + 1) none 0 [] _ 0 [obj] = _
    simp [visitImpl, getObj, hT, hverify, hmap, iBegin_opCode, iEnd_opCode,
      iContainer_opCode, iContainer_operand, loopControllers, loopChildren,
      setControllersAndProperties]
  simp [load, List.range', hstep]

/-- Witness for C5: the registered trivially-mapping type decodes the minimal
well-formed stream `BeginObject, EndObject, Container(0), Container(0)` into
one object with empty controller and child lists. -/
theorem c5_grammar_completeness_witness :
    load [obj7] (iBegin :: ([] ++ iEnd :: iContainer 0 :: iContainer 0 :: [])) testReg =
      (none, [{ obj7 with properties := {}, controllers := [] }]) ∧
    ({ obj7 with properties := ({} : Value), controllers := [] } : SceneObject).controllers = [] ∧
    ({ obj7 with properties := ({} : Value), controllers := [] } : SceneObject).children = [] :=
  c5_grammar_completeness testReg obj7 trivType [] [] {} rfl rfl rfl rfl

/-- Claim C6: an object whose type-id hash has no catalog entry aborts the
decode with the hash `TypeNotFound` error carrying the current object sequence
index and the missing hash (for any state of the shared counter, i.e. however
many objects were decoded before); likewise a controller whose short name has
no catalog entry aborts with the name `TypeNotFound` error carrying the object
index and the missing name. -/
theorem c6_type_not_found :
    (∀ (reg : LoaderRegistry) (fuel : Nat) (parent : Option Nat) (cur : Nat)
      (objects : List Nat) (i0 : PRPInstruction) (rest : List PRPInstruction)
      (objectIdx : Nat) (st : List SceneObject),
      (i0.opCode = PRPOpCode.BeginObject ∨ i0.opCode = PRPOpCode.BeginNamedObject) →
      reg.findTypeByHash (getObj st cur).typeId = none →
      visitImpl reg (fuel + 1) parent cur objects (i0 :: rest) objectIdx st =
        (some (LoadError.typeNotFoundHash objectIdx (getObj st cur).typeId), st, objectIdx)) ∧
    (∀ (reg : LoaderRegistry) (objectIdx : Nat) (s0 b0 : PRPInstruction)
      (rest : List PRPInstruction) (acc : List (String × Value)) (count : Nat),
      s0.opCode = PRPOpCode.String →
      (b0.opCode = PRPOpCode.BeginObject ∨ b0.opCode = PRPOpCode.BeginNamedObject) →
      reg.findTypeByShortName s0.operandStr = none →
      loopControllers reg objectIdx (s0 :: b0 :: rest) acc (count + 1) =
        .error (.typeNotFoundName objectIdx s0.operandStr)) := by
  constructor
  · intro reg fuel parent cur objects i0 rest objectIdx st hop hfind
    rcases hop with h | h <;> simp [visitImpl, h, hfind]
  · intro reg objectIdx s0 b0 rest acc count hs hb hfind
    rcases hb with h | h <;> simp [loopControllers, hs, h, hfind]

/-- Witness for C6: a placeholder with unregistered hash 9 aborts with the hash
error at counter value 3, and a controller named `ZNothing` aborts with the
name error at counter value 4. -/
theorem c6_type_not_found_witness :
    visitImpl testReg 1 none 0 [] [iBegin] 3 [{ typeId := 9 }] =
      (some (LoadError.typeNotFoundHash 3 9), [{ typeId := 9 }], 3) ∧
    loopControllers testReg 4 [iString noneName, iBegin] [] 1 =
      .error (.typeNotFoundName 4 noneName) :=
  ⟨c6_type_not_found.1 testReg 0 none 0 [] iBegin [] 3 [{ typeId := 9 }] (Or.inl rfl) rfl,
   c6_type_not_found.2 testReg 4 (iString noneName) iBegin [] [] 0 rfl (Or.inl rfl) rfl⟩

/-- Claim C7: a controller whose short name resolves to a registered descriptor
of non-complex kind makes the builder raise the fatal not-allowed-as-controller
structural error; the resulting error does not depend on the descriptor's `map`
(the same error for every stream tail), so the controller is never mapped. -/
theorem c7_controller_not_complex
    (reg : LoaderRegistry) (objectIdx : Nat) (s0 b0 : PRPInstruction)
    (rest : List PRPInstruction) (acc : List (String × Value)) (count : Nat) (T : GameType)
    (hs : s0.opCode = PRPOpCode.String)
    (hb : b0.opCode = PRPOpCode.BeginObject ∨ b0.opCode = PRPOpCode.BeginNamedObject)
    (hT : reg.findTypeByShortName s0.operandStr = some T)
    (hk : T.kind ≠ TypeKind.complex) :
    loopControllers reg objectIdx (s0 :: b0 :: rest) acc (count + 1) =
      .error (.structural objectIdx msgControllerNotComplex) := by
  rcases hb with h | h <;> simp [loopControllers, hs, h, hT, hk]

/-- Witness for C7: the primitive descriptor registered under `ZPrim` is
rejected as a controller. -/
theorem c7_controller_not_complex_witness :
    loopControllers testReg 2 [iString primName, iBegin] [] 1 =
      .error (.structural 2 msgControllerNotComplex) :=
  c7_controller_not_complex testReg 2 (iString primName) iBegin [] [] 0 primType
    rfl (Or.inl rfl) rfl (by decide)

/-- Claim C8: `isInheritedOfGeom` is false exactly when the parent geom index
equals the sentinel `0xFFFFFFEE` (and true for every other index), and a
freshly constructed entity defaults its parent index to the sentinel. -/
theorem c8_sentinel_parent :
    (∀ e : GMSGeomEntity,
      (isInheritedOfGeom e = false ↔ e.parentGeomIndex = kInvalidParent) ∧
      (isInheritedOfGeom e = true ↔ e.parentGeomIndex ≠ kInvalidParent)) ∧
    ({} : GMSGeomEntity).parentGeomIndex = kInvalidParent := by
  refine ⟨fun e => ⟨?_, ?_⟩, rfl⟩ <;> simp [isInheritedOfGeom]

/-- Claim C9: `registerType` with an already-present name is a no-op returning
null (the whole registry state, both indices included, is unchanged, so the
first registration wins and the new descriptor is dropped); with a fresh name
the descriptor is stored, the name index gains the entry, and the descriptor is
returned. -/
theorem c9_registerType_first_wins (s : TypeRegistryState) (t : TypeDesc) :
    ((lookupByName s.typesByName t.name).isSome = true →
      registerType s (some t) = (none, s)) ∧
    (lookupByName s.typesByName t.name = none →
      registerType s (some t) =
        (some t, { s with types := s.types ++ [t],
                          typesByName := s.typesByName ++ [(t.name, t)] })) := by
  constructor <;> intro h <;> simp [registerType, tryEmplace, h]

/-- The pre-registered descriptor for the C9 witness. -/
def tPrim : TypeDesc := { name := primName }

/-- The fresh descriptor for the C9 witness. -/
def tCtrl : TypeDesc := { name := ctrlName, tag := 1 }

/-- A registry state already holding `tPrim`. -/
def regState0 : TypeRegistryState :=
  { types := [tPrim], typesByName := [(primName, tPrim)] }

/-- Witness for C9: re-registering the name `ZPrim` is a rejected no-op while
registering the fresh name `ZCtrl` stores and returns the descriptor. -/
theorem c9_registerType_first_wins_witness :
    registerType regState0 (some { name := primName, tag := 5 }) = (none, regState0) ∧
    registerType regState0 (some tCtrl) =
      (some tCtrl, { regState0 with types := [tPrim, tCtrl],
                                    typesByName := [(primName, tPrim), (ctrlName, tCtrl)] }) :=
  ⟨(c9_registerType_first_wins regState0 { name := primName, tag := 5 }).1 rfl,
   (c9_registerType_first_wins regState0 tCtrl).2 rfl⟩

/-- Claim C10: `load` with a null/empty placeholder span or a null/empty
instruction span returns immediately: no error is raised and the placeholder
objects are returned untouched, with no visit performed. -/
theorem c10_load_empty_noop (objects : List SceneObject)
    (instructions : List PRPInstruction) (reg : LoaderRegistry) :
    load [] instructions reg = (none, []) ∧
    load objects [] reg = (none, objects) := by
  constructor <;> simp [load]

end BMEdit
